import Mathlib

/-!
Verification of the `consume` tool of librabbitmq (src/tools/consume.c).

The tool consumes messages from an AMQP queue; for each delivery it spawns
an external command pipeline, streams the body into it and, when the
pipeline exits zero and ack mode is on, acknowledges the delivery tag.

The embedding models the observable behaviour of `main`, `setup_queue`,
`do_consume` and `stringify_bytes` as pure functions producing event
traces.  The AMQP client library and the process helpers are external
collaborators: their calls are represented as events, frames received from
the broker and pipeline exit statuses are inputs supplied by the
environment, and RPCs are modelled as succeeding (a failing RPC is a fatal
path that terminates the process inside the library helpers `die_rpc` /
`die_amqp_error`, outside the logic under study).
-/

namespace Consume

/-- Frame type tag for AMQP method frames (`AMQP_FRAME_METHOD` in the
library headers; the value is the wire constant 1). -/
def AMQP_FRAME_METHOD : Nat := 1

/-- Method id for `basic.deliver` (`AMQP_BASIC_DELIVER_METHOD`, class 60
method 60, i.e. 0x003C003C). -/
def AMQP_BASIC_DELIVER_METHOD : Nat := 0x003C003C

/-- One frame returned by `amqp_simple_wait_frame`, as far as `do_consume`
inspects it: the frame type, the method id of a method frame, and the
delivery tag of a `basic.deliver` payload.  `pipelineSuccess` is the
environment's oracle for what `finish_pipeline` returns for the pipeline
spawned for this delivery (it is only consulted for deliver frames). -/
structure FrameIn where
  frameType : Nat
  methodId : Nat
  deliveryTag : Nat
  pipelineSuccess : Bool
deriving DecidableEq, Repr

/-- Observable calls made by consume.c, in program order.  Constructor
arguments record the parameters the source passes to the collaborator:
`queue_declare` carries the passive/durable/exclusive/auto-delete flags of
`amqp_queue_declare`, `basic_ack` the delivery tag and the multiple flag of
`amqp_basic_ack`. -/
inductive Event where
  | connect
  | config_error_report
  | queue_declare (passive durable exclusive auto_delete : Bool)
  | server_named_queue
  | queue_bind (exchange routing_key : String)
  | basic_qos (prefetch_count : Nat)
  | basic_consume (no_ack : Bool)
  | wait_frame
  | spawn_pipeline
  | copy_body
  | finish_pipeline
  | basic_ack (delivery_tag : Nat) (multiple : Bool)
  | release_buffers
  | close_connection
deriving DecidableEq, Repr

/-- Recognises an acknowledgment event. -/
def isAck : Event → Bool
  | .basic_ack _ _ => true
  | _ => false

/-- Recognises a pipeline spawn event (one per handled delivery). -/
def isSpawn : Event → Bool
  | .spawn_pipeline => true
  | _ => false

/-- Recognises a queue.declare event. -/
def isDeclare : Event → Bool
  | .queue_declare _ _ _ _ => true
  | _ => false

/-- Recognises the per-delivery dispatch-loop events and the QoS call:
frame waits, pipeline spawns, body copies, pipeline waits,
acknowledgments, buffer releases and `basic.qos`. -/
def isLoopOrQos : Event → Bool
  | .basic_qos _ => true
  | .wait_frame => true
  | .spawn_pipeline => true
  | .copy_body => true
  | .finish_pipeline => true
  | .basic_ack _ _ => true
  | .release_buffers => true
  | _ => false

/-- Recognises AMQP operations issued after connection setup
(declare, bind, qos, consume, frame wait, ack, buffer release, close). -/
def isAmqpOp : Event → Bool
  | .queue_declare _ _ _ _ => true
  | .queue_bind _ _ => true
  | .basic_qos _ => true
  | .basic_consume _ => true
  | .wait_frame => true
  | .basic_ack _ _ => true
  | .release_buffers => true
  | .close_connection => true
  | _ => false

/-- Body of one iteration of the dispatch loop of `do_consume`, after the
frame has been received: a frame that is not a method frame carrying
`basic.deliver` is skipped (`continue`, which also skips
`amqp_maybe_release_buffers`); a deliver frame spawns the pipeline, copies
the body, waits for the pipeline, acknowledges (tag of this delivery,
multiple flag 0) exactly when the pipeline succeeded and `no_ack` is off,
and releases buffers. -/
def handleFrame (no_ack : Bool) (f : FrameIn) : List Event :=
  if f.frameType = AMQP_FRAME_METHOD ∧ f.methodId = AMQP_BASIC_DELIVER_METHOD then
    [Event.spawn_pipeline, Event.copy_body, Event.finish_pipeline]
      ++ (if f.pipelineSuccess = true ∧ no_ack = false then
            [Event.basic_ack f.deliveryTag false]
          else [])
      ++ [Event.release_buffers]
  else []

/-- The frames the loop `for (i = 0; count < 0 || i < count; i++)` actually
consumes from the environment stream, starting at iteration index `i`.
The stream ending models external termination of an otherwise blocking
wait. -/
def framesProcessed (count : Int) (i : Nat) : List FrameIn → List FrameIn
  | [] => []
  | f :: rest =>
    if count < 0 ∨ (i : Int) < count then f :: framesProcessed count (i + 1) rest
    else []

/-- Event trace of the dispatch loop of `do_consume`: while the loop
condition `count < 0 || i < count` holds and the environment supplies a
frame, wait for the frame and run the iteration body. -/
def consumeLoop (no_ack : Bool) (count : Int) (i : Nat) : List FrameIn → List Event
  | [] => []
  | f :: rest =>
    if count < 0 ∨ (i : Int) < count then
      (Event.wait_frame :: handleFrame no_ack f) ++ consumeLoop no_ack count (i + 1) rest
    else []

/-- Event trace of `do_consume`: a `basic.qos` call with prefetch `count`
exactly when `0 < count && count <= 65535`, then `basic.consume` with the
caller's no-ack flag, then the dispatch loop. -/
def do_consume (no_ack : Bool) (count : Int) (frames : List FrameIn) : List Event :=
  (if 0 < count ∧ count ≤ 65535 then [Event.basic_qos count.toNat] else [])
    ++ Event.basic_consume no_ack :: consumeLoop no_ack count 0 frames

/-- Event trace and error flag of `setup_queue`.  A routing key without an
exchange is a configuration error reported to stderr followed by
`exit(1)` (flag `true`).  Otherwise the queue is declared (passive 0,
durable 0, exclusive 1, auto-delete 1) when no queue name was given, an
exchange was given, or the declare flag is set; a server-assigned name is
printed; a bind is issued when an exchange was given (NULL routing key
becomes empty bytes via `cstring_bytes`). -/
def setup_queue (queue exchange routing_key : Option String) (declare : Bool) :
    List Event × Bool :=
  if exchange = none ∧ routing_key ≠ none then
    ([Event.config_error_report], true)
  else if queue = none ∨ exchange ≠ none ∨ declare = true then
    (Event.queue_declare false false true true
        :: ((if queue = none then [Event.server_named_queue] else [])
          ++ (match exchange with
              | some e => [Event.queue_bind e (routing_key.getD "")]
              | none => [])),
      false)
  else ([], false)

/-- Command-line configuration of `main` after option processing, with the
defaults of consume.c (`count = -1` when `--count` is not given). -/
structure Config where
  queue : Option String
  exchange : Option String
  routing_key : Option String
  declare : Bool
  no_ack : Bool
  count : Int
  cmd_argv : List String
deriving DecidableEq, Repr

/-- Event trace and exit status of `main`: with no consuming command the
usage error exits 1 before `make_connection`; otherwise the connection is
made, then `setup_queue` runs (its configuration-error path exits 1), then
`do_consume`, then the connection is closed and `main` returns 0. -/
def main_run (cfg : Config) (frames : List FrameIn) : List Event × Nat :=
  if cfg.cmd_argv = [] then ([], 1)
  else
    let setup := setup_queue cfg.queue cfg.exchange cfg.routing_key cfg.declare
    if setup.2 then (Event.connect :: setup.1, 1)
    else
      (Event.connect :: (setup.1
          ++ do_consume cfg.no_ack cfg.count frames
          ++ [Event.close_connection]),
        0)

/-- Characters `stringify_bytes` emits for one input byte: bytes at least
32 other than 127 are copied; the rest become a backslash (92) and the
three octal digits `'0' + (b >> 6)`, `'0' + (b >> 3 & 7)`,
`'0' + (b & 7)`. -/
def stringify_byte (b : Nat) : List Nat :=
  if 32 ≤ b ∧ b ≠ 127 then [b]
  else [92, 48 + (b >>> 6), 48 + ((b >>> 3) &&& 7), 48 + (b &&& 7)]

/-- Characters the loop of `stringify_bytes` emits for a byte sequence. -/
def stringify_bytes : List Nat → List Nat
  | [] => []
  | b :: rest => stringify_byte b ++ stringify_bytes rest

/-- Everything `stringify_bytes` writes into its `malloc(len * 4 + 1)`
buffer: the escaped characters followed by the terminating NUL. -/
def stringify_output (l : List Nat) : List Nat := stringify_bytes l ++ [0]

/-- Decoder for the octal escapes of the diagnostic rendering, modelled
from the spec sentence that the escaping "when the escaping is reversed
(octal-escape decode), reproduces the original bytes": a backslash
followed by three octal digits decodes to the byte they denote, every
other character stands for itself.  No decoder exists in the source; this
is the inverse the round-trip claim quantifies over. -/
def decode_octal : List Nat → List Nat
  | [] => []
  | c :: rest =>
    if c = 92 then
      match rest with
      | d1 :: d2 :: d3 :: rest2 =>
        if 48 ≤ d1 ∧ d1 ≤ 55 ∧ 48 ≤ d2 ∧ d2 ≤ 55 ∧ 48 ≤ d3 ∧ d3 ≤ 55 then
          ((d1 - 48) * 64 + (d2 - 48) * 8 + (d3 - 48)) :: decode_octal rest2
        else c :: decode_octal (d1 :: d2 :: d3 :: rest2)
      | [] => [c]
      | [d1] => [c, d1]
      | [d1, d2] => [c, d1, d2]
    else c :: decode_octal rest

/-- Recognises a `basic.qos` event. -/
def isQos : Event → Bool
  | .basic_qos _ => true
  | _ => false

/-- A sample deliver frame whose pipeline exits zero. -/
def okDeliver : FrameIn :=
  { frameType := AMQP_FRAME_METHOD, methodId := AMQP_BASIC_DELIVER_METHOD,
    deliveryTag := 42, pipelineSuccess := true }

/-- A sample deliver frame whose pipeline exits non-zero. -/
def failedDeliver : FrameIn :=
  { frameType := AMQP_FRAME_METHOD, methodId := AMQP_BASIC_DELIVER_METHOD,
    deliveryTag := 43, pipelineSuccess := false }

/-- A sample non-method frame (a heartbeat, frame type 8). -/
def heartbeatFrame : FrameIn :=
  { frameType := 8, methodId := 0, deliveryTag := 0, pipelineSuccess := true }

/-- The configuration of scenario E: a routing key without an exchange. -/
def badConfig : Config :=
  { queue := none, exchange := none, routing_key := some "rk",
    declare := false, no_ack := false, count := -1, cmd_argv := ["cat"] }

/-- A valid configuration with a named queue, no exchange and count 0. -/
def zeroCountConfig : Config :=
  { queue := some "q", exchange := none, routing_key := none,
    declare := false, no_ack := false, count := 0, cmd_argv := ["cat"] }

theorem decode_octal_cons_ne (c : Nat) (hc : ¬ c = 92) (l : List Nat) :
    decode_octal (c :: l) = c :: decode_octal l := by
  rw [decode_octal.eq_def]
  simp [hc]

theorem decode_octal_escape (d1 d2 d3 : Nat) (l : List Nat)
    (h1 : 48 ≤ d1 ∧ d1 ≤ 55) (h2 : 48 ≤ d2 ∧ d2 ≤ 55) (h3 : 48 ≤ d3 ∧ d3 ≤ 55) :
    decode_octal (92 :: d1 :: d2 :: d3 :: l)
      = ((d1 - 48) * 64 + (d2 - 48) * 8 + (d3 - 48)) :: decode_octal l := by
  rw [decode_octal.eq_def]
  simp [h1.1, h1.2, h2.1, h2.2, h3.1, h3.2]

set_option maxRecDepth 4096 in
theorem escape_digit_facts :
    ∀ b : Nat, b < 256 →
      b >>> 6 ≤ 7 ∧ (b >>> 3) &&& 7 ≤ 7 ∧ b &&& 7 ≤ 7 ∧
        (b >>> 6) * 64 + ((b >>> 3) &&& 7) * 8 + (b &&& 7) = b := by
  decide

theorem decode_stringify_aux :
    ∀ l : List Nat, (∀ b ∈ l, b < 256) → 92 ∉ l →
      decode_octal (stringify_bytes l) = l := by
  intro l
  induction l with
  | nil => intro _ _; simp [stringify_bytes, decode_octal]
  | cons b rest ih =>
    intro h256 h92
    have hb : b < 256 := h256 b (List.mem_cons_self b rest)
    have hbne : b ≠ 92 := fun h => h92 (h ▸ List.mem_cons_self b rest)
    have hrest : decode_octal (stringify_bytes rest) = rest :=
      ih (fun x hx => h256 x (List.mem_cons_of_mem _ hx))
        (fun hx => h92 (List.mem_cons_of_mem _ hx))
    have hsplit : stringify_bytes (b :: rest)
        = stringify_byte b ++ stringify_bytes rest := rfl
    by_cases hlit : 32 ≤ b ∧ b ≠ 127
    · rw [hsplit, stringify_byte, if_pos hlit, List.cons_append, List.nil_append,
        decode_octal_cons_ne b hbne, hrest]
    · have hd := escape_digit_facts b hb
      rw [hsplit, stringify_byte, if_neg hlit]
      rw [List.cons_append, List.cons_append, List.cons_append, List.cons_append,
        List.nil_append]
      rw [decode_octal_escape _ _ _ _ (by omega) (by omega) (by omega), hrest]
      congr 1
      omega

theorem stringify_bytes_length_le :
    ∀ l : List Nat, (stringify_bytes l).length ≤ 4 * l.length := by
  intro l
  induction l with
  | nil => simp [stringify_bytes]
  | cons b rest ih =>
    have hb : (stringify_byte b).length ≤ 4 := by
      unfold stringify_byte
      split <;> simp
    have : stringify_bytes (b :: rest) = stringify_byte b ++ stringify_bytes rest := rfl
    rw [this]
    simp only [List.length_append, List.length_cons]
    omega

set_option maxRecDepth 4096

/-- C6: the escaping emits a byte literally exactly when it is at least 32
and not 127; otherwise it emits a backslash and three octal digits
(values `b >> 6`, `(b >> 3) & 7`, `b & 7`, each at most 7) whose combined
value is the byte itself. -/
theorem stringify_byte_shape (b : Nat) (hb : b < 256) :
    (32 ≤ b ∧ b ≠ 127 → stringify_byte b = [b]) ∧
    (b < 32 ∨ b = 127 →
      stringify_byte b
          = [92, 48 + (b >>> 6), 48 + ((b >>> 3) &&& 7), 48 + (b &&& 7)] ∧
        b >>> 6 ≤ 7 ∧ (b >>> 3) &&& 7 ≤ 7 ∧ b &&& 7 ≤ 7 ∧
        (b >>> 6) * 64 + ((b >>> 3) &&& 7) * 8 + (b &&& 7) = b) := by
  revert hb
  revert b
  decide

/-- C6 witness: byte 10 is escaped to a backslash and the octal digits of
10 (0, 1, 2). -/
theorem stringify_byte_shape_witness :
    stringify_byte 10 = [92, 48 + (10 >>> 6), 48 + ((10 >>> 3) &&& 7), 48 + (10 &&& 7)] := by
  have h := (stringify_byte_shape 10 (by decide)).2 (Or.inl (by decide))
  exact h.1

/-- C5 counterexample: the byte sequences `[92, 48, 48, 48]` (a literal
backslash followed by three ASCII zeros) and `[0]` escape to the same
diagnostic string, so the escaping is not injective, and octal-escape
decoding does not reproduce the former sequence. -/
theorem stringify_not_injective :
    stringify_bytes [92, 48, 48, 48] = stringify_bytes [0] ∧
    [92, 48, 48, 48] ≠ [0] ∧
    decode_octal (stringify_bytes [92, 48, 48, 48]) ≠ [92, 48, 48, 48] := by
  decide

/-- C5 (amended): for every byte sequence over values 0-255 that contains
no literal backslash byte (92), escaping followed by octal-escape decoding
reproduces the original sequence exactly, and the escaping is injective on
such sequences. -/
theorem stringify_roundtrip (l : List Nat) (h256 : ∀ b ∈ l, b < 256)
    (h92 : 92 ∉ l) :
    decode_octal (stringify_bytes l) = l ∧
    (∀ l2 : List Nat, (∀ b ∈ l2, b < 256) → 92 ∉ l2 →
      stringify_bytes l = stringify_bytes l2 → l = l2) := by
  refine ⟨decode_stringify_aux l h256 h92, ?_⟩
  intro l2 h256b h92b heq
  have h1 := decode_stringify_aux l h256 h92
  have h2 := decode_stringify_aux l2 h256b h92b
  rw [← h1, ← h2, heq]

/-- C5 witness: the round trip on the concrete sequence `[0, 65, 255, 31]`. -/
theorem stringify_roundtrip_witness :
    decode_octal (stringify_bytes [0, 65, 255, 31]) = [0, 65, 255, 31] :=
  (stringify_roundtrip [0, 65, 255, 31] (by decide) (by decide)).1

/-- C10: each literal byte contributes one output character and each
escaped byte four, the whole buffer written (characters plus terminating
NUL) fits in the `4 * len + 1` characters allocated, and the output always
ends in the NUL terminator. -/
theorem stringify_output_size (l : List Nat) :
    (∀ b : Nat, (stringify_byte b).length
        = if 32 ≤ b ∧ b ≠ 127 then 1 else 4) ∧
    (stringify_output l).length ≤ 4 * l.length + 1 ∧
    (stringify_output l).getLast? = some 0 := by
  refine ⟨?_, ?_, ?_⟩
  · intro b
    unfold stringify_byte
    split <;> rfl
  · have := stringify_bytes_length_le l
    simp only [stringify_output, List.length_append, List.length_cons,
      List.length_nil]
    omega
  · simp [stringify_output]

theorem handleFrame_spawn_le (no_ack : Bool) (f : FrameIn) :
    (handleFrame no_ack f).countP isSpawn ≤ 1 := by
  unfold handleFrame
  split
  · split <;> simp [isSpawn, List.countP_cons, List.countP_append]
  · simp

theorem handleFrame_no_qos (no_ack : Bool) (f : FrameIn) :
    (handleFrame no_ack f).countP isQos = 0 := by
  unfold handleFrame
  split
  · split <;> simp [isQos, List.countP_cons, List.countP_append]
  · simp

theorem consumeLoop_spawn_le (no_ack : Bool) (count : Int) :
    ∀ (frames : List FrameIn) (i : Nat),
      (consumeLoop no_ack count i frames).countP isSpawn
        ≤ (framesProcessed count i frames).length := by
  intro frames
  induction frames with
  | nil => intro i; simp [consumeLoop, framesProcessed]
  | cons f rest ih =>
    intro i
    by_cases h : count < 0 ∨ (i : Int) < count
    · have hf := handleFrame_spawn_le no_ack f
      have hr := ih (i + 1)
      simp only [consumeLoop, framesProcessed, if_pos h, List.cons_append,
        List.countP_cons, List.countP_append, List.length_cons]
      simp [isSpawn]
      omega
    · simp [consumeLoop, framesProcessed, h]

theorem consumeLoop_no_qos (no_ack : Bool) (count : Int) :
    ∀ (frames : List FrameIn) (i : Nat),
      (consumeLoop no_ack count i frames).countP isQos = 0 := by
  intro frames
  induction frames with
  | nil => intro i; simp [consumeLoop]
  | cons f rest ih =>
    intro i
    by_cases h : count < 0 ∨ (i : Int) < count
    · have hf := handleFrame_no_qos no_ack f
      have hr := ih (i + 1)
      simp only [consumeLoop, if_pos h, List.cons_append, List.countP_cons,
        List.countP_append]
      simp [hf, hr, isQos]
    · simp [consumeLoop, h]

theorem framesProcessed_length_le (count : Int) (hc : 0 ≤ count) :
    ∀ (frames : List FrameIn) (i : Nat),
      (framesProcessed count i frames).length ≤ count.toNat - i := by
  intro frames
  induction frames with
  | nil => intro i; simp [framesProcessed]
  | cons f rest ih =>
    intro i
    by_cases h : count < 0 ∨ (i : Int) < count
    · have hi : (i : Int) < count := by omega
      have hr := ih (i + 1)
      simp only [framesProcessed, if_pos h, List.length_cons]
      omega
    · simp [framesProcessed, h]

theorem framesProcessed_of_neg (count : Int) (hc : count < 0) :
    ∀ (frames : List FrameIn) (i : Nat),
      framesProcessed count i frames = frames := by
  intro frames
  induction frames with
  | nil => intro i; simp [framesProcessed]
  | cons f rest ih =>
    intro i
    simp only [framesProcessed, if_pos (Or.inl hc)]
    rw [ih (i + 1)]

/-- C1: in ack mode (`no_ack` false), a delivery whose pipeline exits zero
produces exactly one acknowledgment; it carries that delivery's own
delivery tag with the multiple flag clear, and it appears only after the
body has been copied to the pipeline and the pipeline has been waited
on. -/
theorem ack_once_after_success (f : FrameIn)
    (hf : f.frameType = AMQP_FRAME_METHOD ∧ f.methodId = AMQP_BASIC_DELIVER_METHOD)
    (hs : f.pipelineSuccess = true) :
    handleFrame false f
        = [Event.spawn_pipeline, Event.copy_body, Event.finish_pipeline,
            Event.basic_ack f.deliveryTag false, Event.release_buffers] ∧
    (handleFrame false f).countP isAck = 1 ∧
    (∃ pre post,
      handleFrame false f = pre ++ Event.basic_ack f.deliveryTag false :: post ∧
      Event.copy_body ∈ pre ∧ Event.finish_pipeline ∈ pre ∧
      pre.countP isAck = 0 ∧ post.countP isAck = 0) := by
  have he : handleFrame false f
      = [Event.spawn_pipeline, Event.copy_body, Event.finish_pipeline,
          Event.basic_ack f.deliveryTag false, Event.release_buffers] := by
    simp [handleFrame, hf.1, hf.2, hs]
  refine ⟨he, ?_, ⟨[Event.spawn_pipeline, Event.copy_body, Event.finish_pipeline],
    [Event.release_buffers], ?_, ?_, ?_, ?_, ?_⟩⟩ <;>
    simp [he, isAck, List.countP_cons]

/-- C1 witness: the sample successful delivery with tag 42 in ack mode. -/
theorem ack_once_after_success_witness :
    handleFrame false okDeliver
        = [Event.spawn_pipeline, Event.copy_body, Event.finish_pipeline,
            Event.basic_ack okDeliver.deliveryTag false, Event.release_buffers] :=
  (ack_once_after_success okDeliver ⟨rfl, rfl⟩ rfl).1

/-- C2: a delivery whose pipeline exits non-zero produces no
acknowledgment call — with ack mode on or off — no fatal exit occurs on
this path, and the dispatch loop proceeds to its next iteration. -/
theorem no_ack_on_pipeline_failure (no_ack : Bool) (count : Int) (i : Nat)
    (f : FrameIn) (rest : List FrameIn)
    (hf : f.frameType = AMQP_FRAME_METHOD ∧ f.methodId = AMQP_BASIC_DELIVER_METHOD)
    (hs : f.pipelineSuccess = false)
    (hcond : count < 0 ∨ (i : Int) < count) :
    handleFrame no_ack f
        = [Event.spawn_pipeline, Event.copy_body, Event.finish_pipeline,
            Event.release_buffers] ∧
    (handleFrame no_ack f).countP isAck = 0 ∧
    consumeLoop no_ack count i (f :: rest)
      = (Event.wait_frame :: handleFrame no_ack f)
          ++ consumeLoop no_ack count (i + 1) rest := by
  have he : handleFrame no_ack f
      = [Event.spawn_pipeline, Event.copy_body, Event.finish_pipeline,
          Event.release_buffers] := by
    simp [handleFrame, hf.1, hf.2, hs]
  exact ⟨he, by simp [he, isAck, List.countP_cons],
    by simp [consumeLoop, hcond]⟩

/-- C2 witness: the sample failed delivery with tag 43, in ack mode, in an
unbounded run. -/
theorem no_ack_on_pipeline_failure_witness :
    (handleFrame false failedDeliver).countP isAck = 0 ∧
    consumeLoop false (-1) 0 [failedDeliver]
      = (Event.wait_frame :: handleFrame false failedDeliver)
          ++ consumeLoop false (-1) 1 [] := by
  have h := no_ack_on_pipeline_failure false (-1) 0 failedDeliver []
    ⟨rfl, rfl⟩ rfl (Or.inl (by decide))
  exact ⟨h.2.1, h.2.2⟩

/-- C3 counterexample: `count = 0` lies outside 1..65535, so the claim
asserts the loop runs unbounded; in fact with a deliver frame available
the loop performs zero iterations — no frame is consumed and the trace
ends right after `basic.consume`. -/
theorem count_zero_not_unbounded :
    ¬ (1 ≤ (0 : Int) ∧ (0 : Int) ≤ 65535) ∧
    framesProcessed 0 0 [okDeliver] = [] ∧
    [okDeliver] ≠ ([] : List FrameIn) ∧
    do_consume false 0 [okDeliver] = [Event.basic_consume false] := by
  refine ⟨by decide, ?_, by decide, ?_⟩
  · simp [framesProcessed]
  · simp [do_consume, consumeLoop]

/-- C3 (amended): for `count = N` with 1 ≤ N ≤ 65535 a QoS prefetch of N
is requested before the consume request and at most N deliveries are
processed; for `count` outside that range no QoS call is made; the loop
runs unbounded (consuming every frame the environment supplies) only when
`count` is negative (unset), while a non-negative out-of-range `count`
still bounds the number of iterations (`count = 0` yields zero). -/
theorem qos_and_iteration_bound (no_ack : Bool) (count : Int)
    (frames : List FrameIn) :
    (1 ≤ count ∧ count ≤ 65535 →
      do_consume no_ack count frames
        = Event.basic_qos count.toNat
            :: Event.basic_consume no_ack :: consumeLoop no_ack count 0 frames) ∧
    (¬ (1 ≤ count ∧ count ≤ 65535) →
      do_consume no_ack count frames
        = Event.basic_consume no_ack :: consumeLoop no_ack count 0 frames ∧
      (do_consume no_ack count frames).countP isQos = 0) ∧
    (0 ≤ count →
      (do_consume no_ack count frames).countP isSpawn ≤ count.toNat) ∧
    (count < 0 → framesProcessed count 0 frames = frames) := by
  refine ⟨?_, ?_, ?_, ?_⟩
  · intro h
    have hq : 0 < count ∧ count ≤ 65535 := by omega
    simp [do_consume, hq]
  · intro h
    have hq : ¬ (0 < count ∧ count ≤ 65535) := by omega
    have he : do_consume no_ack count frames
        = Event.basic_consume no_ack :: consumeLoop no_ack count 0 frames := by
      simp [do_consume, hq]
    refine ⟨he, ?_⟩
    rw [he]
    simp [List.countP_cons, isQos, consumeLoop_no_qos]
  · intro h
    have h1 := consumeLoop_spawn_le no_ack count frames 0
    have h2 := framesProcessed_length_le count h frames 0
    have h3 : (do_consume no_ack count frames).countP isSpawn
        = (consumeLoop no_ack count 0 frames).countP isSpawn := by
      unfold do_consume
      split <;> simp [List.countP_cons, List.countP_append, isSpawn]
    omega
  · intro h
    exact framesProcessed_of_neg count h frames 0

/-- C3 witness: a bounded run with count 5 requests QoS 5 first, and an
unbounded run (count -1) consumes every supplied frame. -/
theorem qos_and_iteration_bound_witness :
    do_consume false 5 [okDeliver]
      = Event.basic_qos (5 : Int).toNat
          :: Event.basic_consume false :: consumeLoop false 5 0 [okDeliver] ∧
    framesProcessed (-1) 0 [okDeliver, heartbeatFrame] = [okDeliver, heartbeatFrame] :=
  ⟨(qos_and_iteration_bound false 5 [okDeliver]).1 (by decide),
    (qos_and_iteration_bound false (-1) [okDeliver, heartbeatFrame]).2.2.2 (by decide)⟩

/-- C8: a dispatch-loop iteration handles a frame (spawns the pipeline)
exactly when it is a method frame whose method id is basic.deliver; every
other frame is discarded with no events emitted, and the loop proceeds to
wait for the next frame. -/
theorem non_deliver_frames_discarded (no_ack : Bool) (count : Int) (i : Nat)
    (f : FrameIn) (rest : List FrameIn)
    (hf : ¬ (f.frameType = AMQP_FRAME_METHOD ∧ f.methodId = AMQP_BASIC_DELIVER_METHOD))
    (hcond : count < 0 ∨ (i : Int) < count) :
    handleFrame no_ack f = [] ∧
    consumeLoop no_ack count i (f :: rest)
      = Event.wait_frame :: consumeLoop no_ack count (i + 1) rest ∧
    (∀ g : FrameIn, Event.spawn_pipeline ∈ handleFrame no_ack g ↔
      (g.frameType = AMQP_FRAME_METHOD ∧ g.methodId = AMQP_BASIC_DELIVER_METHOD)) := by
  have he : handleFrame no_ack f = [] := by
    simp [handleFrame, hf]
  refine ⟨he, by simp [consumeLoop, hcond, he], ?_⟩
  intro g
  by_cases hg : g.frameType = AMQP_FRAME_METHOD ∧ g.methodId = AMQP_BASIC_DELIVER_METHOD
  · simp only [handleFrame, if_pos hg]
    constructor
    · intro _; exact hg
    · intro _; simp
  · simp [handleFrame, hg]

/-- C8 witness: a heartbeat frame in an unbounded run is discarded and the
loop waits again. -/
theorem non_deliver_frames_discarded_witness :
    handleFrame false heartbeatFrame = [] ∧
    consumeLoop false (-1) 0 [heartbeatFrame, okDeliver]
      = Event.wait_frame :: consumeLoop false (-1) 1 [okDeliver] := by
  have h := non_deliver_frames_discarded false (-1) 0 heartbeatFrame [okDeliver]
    (by decide) (Or.inl (by decide))
  exact ⟨h.1, h.2.1⟩

theorem setup_queue_no_loop (q ex rk : Option String) (d : Bool) :
    (setup_queue q ex rk d).1.countP isLoopOrQos = 0 := by
  rcases q with _ | qs <;> rcases ex with _ | e <;> rcases rk with _ | r <;>
    cases d <;>
    simp [setup_queue, isLoopOrQos, List.countP_cons, List.countP_append]

theorem setup_queue_ok (q ex rk : Option String) (d : Bool)
    (hvalid : ex = none → rk = none) :
    (setup_queue q ex rk d).2 = false := by
  have herr : ¬ (ex = none ∧ rk ≠ none) := fun h => h.2 (hvalid h.1)
  unfold setup_queue
  rw [if_neg herr]
  split <;> rfl

/-- C4 counterexample: with a routing key and no exchange (scenario E) the
process does report the error and exit with status 1, but the connection
to the broker is established first — `main` calls `make_connection` before
`setup_queue` performs the check, so the exit is not before network
I/O. -/
theorem connect_precedes_config_error :
    (main_run badConfig []).2 = 1 ∧
    Event.connect ∈ (main_run badConfig []).1 ∧
    (main_run badConfig []).1 = [Event.connect, Event.config_error_report] := by
  refine ⟨?_, ?_, ?_⟩ <;> simp [main_run, badConfig, setup_queue]

/-- C4 (amended): when a routing key is supplied without an exchange name
(and a consuming command is present), the process reports the
configuration error and exits with status 1 before any AMQP operation
(declare, bind, qos, consume, frame wait, ack) is issued — but only after
the connection to the broker has been established. -/
theorem config_error_after_connect (cfg : Config) (frames : List FrameIn)
    (hcmd : cfg.cmd_argv ≠ [])
    (hex : cfg.exchange = none) (hrk : cfg.routing_key ≠ none) :
    main_run cfg frames = ([Event.connect, Event.config_error_report], 1) ∧
    (∀ e ∈ (main_run cfg frames).1, isAmqpOp e = false) := by
  have hs : setup_queue cfg.queue cfg.exchange cfg.routing_key cfg.declare
      = ([Event.config_error_report], true) := by
    simp [setup_queue, hex, hrk]
  have hm : main_run cfg frames = ([Event.connect, Event.config_error_report], 1) := by
    simp [main_run, hcmd, hs]
  refine ⟨hm, ?_⟩
  rw [hm]
  intro e he
  simp at he
  rcases he with h | h <;> subst h <;> rfl

/-- C4 witness: the amended statement at the scenario-E configuration. -/
theorem config_error_after_connect_witness :
    main_run badConfig [] = ([Event.connect, Event.config_error_report], 1) :=
  (config_error_after_connect badConfig [] (by decide) rfl (by decide)).1

/-- C7: on a valid configuration, the events of `setup_queue` contain a
queue.declare exactly when no queue name was given, an exchange name was
given, or the declare flag was set — and that declare is non-passive,
non-durable, exclusive and auto-delete; otherwise no declare call is
made. -/
theorem queue_declare_iff (q ex rk : Option String) (d : Bool)
    (hvalid : ex = none → rk = none) :
    (setup_queue q ex rk d).1.filter isDeclare
      = if q = none ∨ ex ≠ none ∨ d = true
        then [Event.queue_declare false false true true] else [] := by
  rcases ex with _ | e
  · have hrk := hvalid rfl
    subst hrk
    rcases q with _ | qs <;> cases d <;> simp [setup_queue, isDeclare]
  · rcases q with _ | qs <;> cases d <;> simp [setup_queue, isDeclare]

/-- C7 witness: scenario B — a named queue with an exchange is declared
(one declare, flags passive 0, durable 0, exclusive 1, auto-delete 1). -/
theorem queue_declare_iff_witness :
    (setup_queue (some "orders") (some "ex1") (some "rk1") false).1.filter isDeclare
      = [Event.queue_declare false false true true] := by
  have h := queue_declare_iff (some "orders") (some "ex1") (some "rk1") false
    (fun hx => nomatch hx)
  simpa using h

/-- C9: with count = 0 the consume request is still issued but the
dispatch loop performs zero iterations: the trace of `do_consume` is just
`basic.consume`, and a full run with a valid configuration and count 0
exits with status 0 having made no QoS call, waited for no frame, spawned
no pipeline and sent no acknowledgment. -/
theorem count_zero_zero_iterations (no_ack : Bool) (frames : List FrameIn)
    (cfg : Config) (hcmd : cfg.cmd_argv ≠ [])
    (hvalid : cfg.exchange = none → cfg.routing_key = none)
    (hcount : cfg.count = 0) :
    do_consume no_ack 0 frames = [Event.basic_consume no_ack] ∧
    (main_run cfg frames).2 = 0 ∧
    Event.basic_consume cfg.no_ack ∈ (main_run cfg frames).1 ∧
    (main_run cfg frames).1.countP isLoopOrQos = 0 := by
  have hloop : ∀ b : Bool, consumeLoop b 0 0 frames = [] := by
    intro b
    cases frames <;> simp [consumeLoop]
  have hdc : ∀ b : Bool, do_consume b 0 frames = [Event.basic_consume b] := by
    intro b
    simp [do_consume, hloop b]
  have hflag := setup_queue_ok cfg.queue cfg.exchange cfg.routing_key cfg.declare hvalid
  have hmain : main_run cfg frames
      = (Event.connect
          :: ((setup_queue cfg.queue cfg.exchange cfg.routing_key cfg.declare).1
            ++ do_consume cfg.no_ack cfg.count frames
            ++ [Event.close_connection]),
        0) := by
    simp [main_run, hcmd, hflag]
  rw [hmain, hcount]
  refine ⟨hdc no_ack, rfl, ?_, ?_⟩
  · rw [hdc cfg.no_ack]
    simp
  · rw [hdc cfg.no_ack]
    simp [List.countP_cons, List.countP_append, setup_queue_no_loop, isLoopOrQos]

/-- C9 witness: the count-0 run on the concrete configuration. -/
theorem count_zero_zero_iterations_witness :
    do_consume false 0 [] = [Event.basic_consume false] ∧
    (main_run zeroCountConfig []).2 = 0 ∧
    Event.basic_consume zeroCountConfig.no_ack ∈ (main_run zeroCountConfig []).1 ∧
    (main_run zeroCountConfig []).1.countP isLoopOrQos = 0 :=
  count_zero_zero_iterations false [] zeroCountConfig (by decide) (fun _ => rfl) rfl

end Consume
